import Mathlib

/-!
Shallow embedding of the pttkey push-to-talk microphone controller
(`src/main.rs`, `src/config.rs`, `src/audio.rs`).

External effects (`wpctl` invocations, sound playback, sleeps) are
recorded in an explicit trace, and outcomes supplied by the environment
(command success, device opens, fetched input events, file reads,
audio decoding) are provided by oracle parameters, so every definition
is executable on concrete inputs.

`src/main.rs` is a self-contained binary: it declares its own `Config`
(without `reverse`/`suppress` fields) and its own reconciliation loop.
`src/config.rs` and `src/audio.rs` are the newer modules with the richer
`Config` (with `reverse`, `SoundChoice`, the sound cache).  Both are
embedded here: `MainConfig` and the loop functions come from `main.rs`,
`Config`/`parse_args` from `config.rs`, the sound cache from `audio.rs`.
-/

/-- Linux evdev key code, as wrapped by `evdev::KeyCode` (a `u16` code). -/
abbrev KeyCode := Nat

/-- Opaque stand-in for `f32` volume levels.  The program never computes
with them; they only flow into external `wpctl` invocations, so they are
modelled as opaque integer tokens. -/
abbrev Level := Int

/-- `Mode` (`main.rs:156`, `config.rs:15`): toggle by volume level or by mute state. -/
inductive Mode
  | volume
  | mute
  deriving DecidableEq, Repr

/-- `StartupState` (`main.rs:163`, `config.rs:22`). -/
inductive StartupState
  | muted
  | unmuted
  deriving DecidableEq, Repr

/-- External side effects performed by `main.rs`, in invocation order. -/
inductive ExtCall
  | setVolumeCall (level : Level)   -- `wpctl set-volume @DEFAULT_SOURCE@ <level>`
  | setMuteCall (muted : Bool)      -- `wpctl set-mute @DEFAULT_SOURCE@ <0|1>`
  | soundFileCall (path : String)   -- `play_sound_file(path)`, background thread
  | soundDefaultCall (onEdge : Bool) -- `play_default_sound(on)`, background thread
  | sleepSecs (n : Nat)             -- `std::thread::sleep(Duration::from_secs(n))`
  deriving DecidableEq, Repr

/-- The `std::io::Error` kinds relevant to the spec's error taxonomy,
both for `fetch_events` results and as the kind of the underlying io
error of a failed `Device::open`. -/
inductive IoErrorKind
  | wouldBlock
  | permissionDenied
  | other
  deriving DecidableEq, Repr

/-- The `anyhow::Error` values the program can produce.  `openFailed` is
the `Device::open` failure as wrapped by `with_context` at
`main.rs:584-585`: the context message carries only the path, while the
underlying io error (whose kind is recorded here) sits in the error's
source chain and is NOT part of its `to_string()` output. -/
inductive AppError
  | wpctlFailed                     -- context "wpctl failed"
  | openFailed (path : String) (underlying : IoErrorKind)
  | unsupportedKey (path : String) (key : KeyCode)
  | noDeviceFound
  deriving DecidableEq, Repr

/-- Rust `str::contains` with a literal pattern, over character lists. -/
def has_substring : List Char → List Char → Bool
  | [], pat => pat.isEmpty
  | c :: rest, pat => pat.isPrefixOf (c :: rest) || has_substring rest pat

/-- `err.to_string()` of each error value: anyhow's `Display` shows only
the outermost context or message, so the `with_context`-wrapped
`Device::open` failure displays as "Failed to open device {path}" with
no trace of the underlying io error's text. -/
def error_to_string : AppError → String
  | .wpctlFailed => "wpctl failed"
  | .openFailed path _ => "Failed to open device " ++ path
  | .unsupportedKey path key =>
    "Device " ++ path ++ " does not support key " ++ toString key
  | .noDeviceFound => "No input device found that supports all configured keys"

/-- `is_permission_denied` (`main.rs:699`): tests whether
`err.to_string()` contains "Permission denied".  Because the open error
is context-wrapped, a real EACCES failure displays as
"Failed to open device {path}" and this check sees "Permission denied"
only if the path itself happens to contain that text. -/
def is_permission_denied (e : AppError) : Bool :=
  has_substring (error_to_string e).data ("Permission denied").data

/-- The external world: the pending outcomes of successive `wpctl`
invocations (an exhausted list means every further invocation succeeds)
and the chronological log of performed external calls. -/
structure World where
  wpctl : List Bool
  calls : List ExtCall
  deriving DecidableEq, Repr

/-- Record one external call in the trace. -/
def World.log (w : World) (c : ExtCall) : World :=
  { w with calls := w.calls ++ [c] }

/-- Consume the outcome of the next `wpctl` invocation. -/
def World.popWpctl (w : World) : Bool × World :=
  match w.wpctl with
  | [] => (true, w)
  | b :: rest => (b, { w with wpctl := rest })

/-- `set_volume` (`main.rs:200`): run `wpctl set-volume`; a spawn failure
surfaces as the "wpctl failed" error. -/
def set_volume (level : Level) (w : World) : Except AppError Unit × World :=
  let w := w.log (.setVolumeCall level)
  let (ok, w) := w.popWpctl
  (if ok then .ok () else .error .wpctlFailed, w)

/-- `set_mute` (`main.rs:213`): run `wpctl set-mute`. -/
def set_mute (muted : Bool) (w : World) : Except AppError Unit × World :=
  let w := w.log (.setMuteCall muted)
  let (ok, w) := w.popWpctl
  (if ok then .ok () else .error .wpctlFailed, w)

/-- `Config` as declared in `main.rs:170` — the configuration consumed by
the reconciliation loop in `src/main.rs`.  Note it has no `reverse` or
`suppress` field and its sound slots are plain optional paths. -/
structure MainConfig where
  keys : List KeyCode
  devicePath : Option String
  mode : Mode
  onLevel : Level
  offLevel : Level
  sounds : Bool
  soundOn : Option String
  soundOff : Option String
  listKeys : Bool
  listDevices : Bool
  printConfig : Bool
  dryRun : Bool
  startupState : StartupState
  deriving DecidableEq, Repr

/-- `apply_on` (`main.rs:306`). -/
def apply_on (config : MainConfig) (w : World) : Except AppError Unit × World :=
  match config.mode with
  | .volume => set_volume config.onLevel w
  | .mute => set_mute false w

/-- `apply_off` (`main.rs:314`). -/
def apply_off (config : MainConfig) (w : World) : Except AppError Unit × World :=
  match config.mode with
  | .volume => set_volume config.offLevel w
  | .mute => set_mute true w

/-- The external call `apply_on` performs. -/
def on_call (config : MainConfig) : ExtCall :=
  match config.mode with
  | .volume => .setVolumeCall config.onLevel
  | .mute => .setMuteCall false

/-- The external call `apply_off` performs. -/
def off_call (config : MainConfig) : ExtCall :=
  match config.mode with
  | .volume => .setVolumeCall config.offLevel
  | .mute => .setMuteCall true

/-- `play_transition_sound` (`main.rs:623`): best-effort, spawns playback
in the background; modelled as pure trace logging. -/
def play_transition_sound (config : MainConfig) (onEdge : Bool) (w : World) : World :=
  if !config.sounds then w
  else if onEdge then
    match config.soundOn with
    | some path => w.log (.soundFileCall path)
    | none => w.log (.soundDefaultCall true)
  else
    match config.soundOff with
    | some path => w.log (.soundFileCall path)
    | none => w.log (.soundDefaultCall false)

/-- The calls `play_transition_sound` logs, as a list. -/
def sound_call (config : MainConfig) (onEdge : Bool) : List ExtCall :=
  if !config.sounds then []
  else if onEdge then
    match config.soundOn with
    | some path => [.soundFileCall path]
    | none => [.soundDefaultCall true]
  else
    match config.soundOff with
    | some path => [.soundFileCall path]
    | none => [.soundDefaultCall false]

/-- `set_active_state` (`main.rs:640`): apply the action; on success play
the transition sound and store the new activation value.  An apply
failure propagates before `*active = on` runs, leaving `active` as it was. -/
def set_active_state (config : MainConfig) (active : Bool) (onEdge : Bool) (w : World) :
    Except AppError Unit × Bool × World :=
  if onEdge then
    match apply_on config w with
    | (.error e, w) => (.error e, active, w)
    | (.ok _, w) => (.ok (), onEdge, play_transition_sound config true w)
  else
    match apply_off config w with
    | (.error e, w) => (.error e, active, w)
    | (.ok _, w) => (.ok (), onEdge, play_transition_sound config false w)

/-- `update_pressed_keys` (`main.rs:654`): value 1 inserts, value 0
removes, any other value (key repeat = 2) leaves the set unchanged. -/
def update_pressed_keys (pressed : Finset KeyCode) (key : KeyCode) (value : Int) :
    Finset KeyCode :=
  match value with
  | 1 => insert key pressed
  | 0 => pressed.erase key
  | _ => pressed

/-- `refresh_active_state` (`main.rs:666`): recompute `all_pressed` and
apply a transition only when it differs from the stored activation. -/
def refresh_active_state (config : MainConfig) (pressed : Finset KeyCode) (active : Bool)
    (w : World) : Except AppError Unit × Bool × World :=
  let allPressed := config.keys.all fun k => decide (k ∈ pressed)
  if allPressed ≠ active then set_active_state config active allPressed w
  else (.ok (), active, w)

/-- One event as destructured by `ev.destructure()`: the loop only acts
on `EventSummary::Key` events. -/
inductive RawEvent
  | key (code : KeyCode) (value : Int)
  | other
  deriving DecidableEq, Repr

/-- Outcome of `device.fetch_events()` for one poll. -/
inductive FetchResult
  | ok (events : List RawEvent)
  | err (e : IoErrorKind)
  deriving DecidableEq, Repr

/-- The `for ev in events` body of `handle_events` (`main.rs:686`):
key events update the pressed set and refresh activation; an error from
`refresh_active_state` propagates immediately (remaining events dropped). -/
def process_events (config : MainConfig) :
    List RawEvent → Finset KeyCode → Bool → World →
    Except AppError Unit × Finset KeyCode × Bool × World
  | [], pressed, active, w => (.ok (), pressed, active, w)
  | ev :: rest, pressed, active, w =>
    match ev with
    | .key code value =>
      let pressed := update_pressed_keys pressed code value
      match refresh_active_state config pressed active w with
      | (.error e, active, w) => (.error e, pressed, active, w)
      | (.ok _, active, w) => process_events config rest pressed active w
    | .other => process_events config rest pressed active w

/-- `handle_events` (`main.rs:678`): returns `Ok(Some(err))` for ANY
fetch error (no inspection of the error kind), `Ok(None)` after
processing fetched events, and `Err` when a transition apply fails. -/
def handle_events (config : MainConfig) (fetch : FetchResult) (pressed : Finset KeyCode)
    (active : Bool) (w : World) :
    Except AppError (Option IoErrorKind) × Finset KeyCode × Bool × World :=
  match fetch with
  | .ok events =>
    match process_events config events pressed active w with
    | (.error e, pressed, active, w) => (.error e, pressed, active, w)
    | (.ok _, pressed, active, w) => (.ok none, pressed, active, w)
  | .err e => (.ok (some e), pressed, active, w)

/-- An input device handle: `supported_keys()` returns the key capability
set when the device reports one (`None` when it has no key capability). -/
structure Device where
  supportedKeys : Option (Finset KeyCode)
  deriving DecidableEq

/-- `reopen_device_loop` (`main.rs:715`): retry `open_device_with_hint`
forever, sleeping one second after each failure, except that a
permission-denied failure is returned immediately.  The `attempts` list
supplies the outcome of each successive open attempt; `none` means the
loop did not terminate within the supplied outcomes. -/
def reopen_device_loop : List (Except AppError Device) → World →
    Option (Except AppError Device × World)
  | [], _ => none
  | .ok d :: _, w => some (.ok d, w)
  | .error e :: rest, w =>
    if is_permission_denied e then some (.error e, w)
    else reopen_device_loop rest (w.log (.sleepSecs 1))

/-- `open_device` (`main.rs:582`).  `openAt` is the oracle for
`Device::open` on the explicit path, yielding the raw io error kind on
failure, which `open_device` wraps with the "Failed to open device"
context; `enumerated` models `evdev::enumerate()`.  With an explicit
path the key check runs only when the device reports a key capability
set; with no path the first enumerated device supporting every
configured key is picked. -/
def open_device (config : MainConfig) (openAt : String → Except IoErrorKind Device)
    (enumerated : List Device) : Except AppError Device :=
  match config.devicePath with
  | some path =>
    match openAt path with
    | .error kind => .error (.openFailed path kind)
    | .ok device =>
      match device.supportedKeys with
      | some ks =>
        match config.keys.find? (fun k => decide (k ∉ ks)) with
        | some k => .error (.unsupportedKey path k)
        | none => .ok device
      | none => .ok device
  | none =>
    let devices := enumerated.filter fun d =>
      (d.supportedKeys.map fun ks => config.keys.all fun k => decide (k ∈ ks)).getD false
    match devices with
    | [] => .error .noDeviceFound
    | d :: _ => .ok d

/-- Environment stimulus for one iteration of the `while running` loop:
the fetch outcome, and (used only if recovery is entered) the outcomes of
successive reopen attempts. -/
structure IterStim where
  fetch : FetchResult
  reopenAttempts : List (Except AppError Device)

/-- The `while running.load()` loop of `main` (`main.rs:777`) together
with the final safety mute (`main.rs:788`).  One `IterStim` is consumed
per iteration in which the termination flag is still set; the list
running out models the flag being cleared.  Any `?` failure propagates
immediately as `some (.error e, ...)`; `none` means the reopen retry loop
never terminated. -/
def main_loop (config : MainConfig) :
    List IterStim → Finset KeyCode → Bool → World →
    Option (Except AppError Unit × Finset KeyCode × Bool × World)
  | [], pressed, active, w =>
    match apply_off config w with
    | (.error e, w) => some (.error e, pressed, active, w)
    | (.ok _, w) => some (.ok (), pressed, active, w)
  | stim :: rest, pressed, active, w =>
    match handle_events config stim.fetch pressed active w with
    | (.error e, pressed, active, w) => some (.error e, pressed, active, w)
    | (.ok none, pressed, active, w) => main_loop config rest pressed active w
    | (.ok (some _), pressed, active, w) =>
      match apply_off config w with
      | (.error e, w) => some (.error e, pressed, active, w)
      | (.ok _, w) =>
        match reopen_device_loop stim.reopenAttempts w with
        | none => none
        | some (.error e, w) => some (.error e, (∅ : Finset KeyCode), false, w)
        | some (.ok _, w) => main_loop config rest (∅ : Finset KeyCode) false w

/-- Modelled from the spec: `desired_activation(snapshot, pressed)` with
`all_pressed = every key in snapshot.keys ∈ pressed` and result
`all_pressed XOR snapshot.reverse` (spec §4.1).  Stated over the
snapshot's fields for comparison with the loop embedded from
`src/main.rs`, whose configuration has no `reverse` field. -/
def desired_activation_spec (keys : List KeyCode) (reverse : Bool)
    (pressed : Finset KeyCode) : Bool :=
  xor (keys.all fun k => decide (k ∈ pressed)) reverse

/-! ## `src/config.rs` -/

/-- `SoundChoice` (`config.rs:28`). -/
inductive SoundChoice
  | default
  | disabled
  | file (path : String)
  deriving DecidableEq, Repr

/-- `SoundSettingValue` (`config.rs:91`): untagged bool-or-string as
persisted in the TOML file. -/
inductive SoundSettingValue
  | bool (b : Bool)
  | str (s : String)
  deriving DecidableEq, Repr

/-- `Config` (`config.rs:36`) — the newer runtime configuration with
`reverse` ("Reverse behavior so holding keys mutes instead of unmutes")
and `suppress`. -/
structure Config where
  keys : List KeyCode
  devicePath : Option String
  mode : Mode
  onLevel : Level
  offLevel : Level
  sounds : Bool
  soundOn : SoundChoice
  soundOff : SoundChoice
  soundVolume : Level
  listKeys : Bool
  listDevices : Bool
  printConfig : Bool
  dryRun : Bool
  startupState : StartupState
  reverse : Bool
  suppress : Bool
  deriving DecidableEq, Repr

/-- `PersistedConfig` (`config.rs:74`): config data persisted to disk,
already deserialized (TOML parsing is out of scope). -/
structure PersistedConfig where
  keys : List String
  devicePath : Option String
  mode : String
  onLevel : Level
  offLevel : Level
  sounds : Bool
  soundOn : Option SoundSettingValue
  soundOff : Option SoundSettingValue
  soundVolume : Level
  startupState : String
  reverse : Bool
  suppress : Bool
  deriving DecidableEq, Repr

/-- `PersistedConfig::default()` (`config.rs:96`). -/
def default_persisted_config : PersistedConfig :=
  { keys := ["BTN_EXTRA"], devicePath := none, mode := "volume",
    onLevel := 1, offLevel := 0, sounds := true,
    soundOn := none, soundOff := none, soundVolume := 1,
    startupState := "muted", reverse := false, suppress := false }

/-- Errors (and the help exit) with which `parse_args` can stop. -/
inductive ParseErr
  | helpExit                          -- `print_help(); std::process::exit(0)`
  | unknownKey (input : String)       -- "Unknown key ..."
  | missingValue (flag : String)      -- "missing value for ..."
  | invalidMode (value : String)      -- "Invalid --mode ..."
  | invalidStartupState (value : String)
  | invalidLevel (flag : String) (value : String)
  | unknownArg (arg : String)         -- "Unknown argument ..."
  | soundFileMissing (path : String)  -- "Sound on/off file does not exist ..."
  deriving DecidableEq, Repr

/-- `SUPPORTED_KEYS` (`main.rs:28`, re-exported through
`crate::constants`): name/key pairs, with the standard Linux
`input-event-codes.h` numeric codes for each `evdev::KeyCode` constant. -/
def SUPPORTED_KEYS : List (String × KeyCode) := [
  ("BTN_LEFT", 272), ("BTN_RIGHT", 273), ("BTN_MIDDLE", 274),
  ("BTN_SIDE", 275), ("BTN_EXTRA", 276), ("BTN_FORWARD", 277), ("BTN_BACK", 278),
  ("KEY_A", 30), ("KEY_B", 48), ("KEY_C", 46), ("KEY_D", 32), ("KEY_E", 18),
  ("KEY_F", 33), ("KEY_G", 34), ("KEY_H", 35), ("KEY_I", 23), ("KEY_J", 36),
  ("KEY_K", 37), ("KEY_L", 38), ("KEY_M", 50), ("KEY_N", 49), ("KEY_O", 24),
  ("KEY_P", 25), ("KEY_Q", 16), ("KEY_R", 19), ("KEY_S", 31), ("KEY_T", 20),
  ("KEY_U", 22), ("KEY_V", 47), ("KEY_W", 17), ("KEY_X", 45), ("KEY_Y", 21),
  ("KEY_Z", 44),
  ("KEY_0", 11), ("KEY_1", 2), ("KEY_2", 3), ("KEY_3", 4), ("KEY_4", 5),
  ("KEY_5", 6), ("KEY_6", 7), ("KEY_7", 8), ("KEY_8", 9), ("KEY_9", 10),
  ("KEY_F1", 59), ("KEY_F2", 60), ("KEY_F3", 61), ("KEY_F4", 62),
  ("KEY_F5", 63), ("KEY_F6", 64), ("KEY_F7", 65), ("KEY_F8", 66),
  ("KEY_F9", 67), ("KEY_F10", 68), ("KEY_F11", 87), ("KEY_F12", 88),
  ("KEY_LEFTCTRL", 29), ("KEY_RIGHTCTRL", 97), ("KEY_LEFTSHIFT", 42),
  ("KEY_RIGHTSHIFT", 54), ("KEY_LEFTALT", 56), ("KEY_RIGHTALT", 100),
  ("KEY_LEFTMETA", 125), ("KEY_RIGHTMETA", 126), ("KEY_CAPSLOCK", 58),
  ("KEY_TAB", 15), ("KEY_SPACE", 57), ("KEY_ENTER", 28), ("KEY_ESC", 1),
  ("KEY_BACKSPACE", 14),
  ("KEY_UP", 103), ("KEY_DOWN", 108), ("KEY_LEFT", 105), ("KEY_RIGHT", 106),
  ("KEY_HOME", 102), ("KEY_END", 107), ("KEY_PAGEUP", 104),
  ("KEY_PAGEDOWN", 109), ("KEY_INSERT", 110), ("KEY_DELETE", 111),
  ("KEY_MINUS", 12), ("KEY_EQUAL", 13), ("KEY_LEFTBRACE", 26),
  ("KEY_RIGHTBRACE", 27), ("KEY_BACKSLASH", 43), ("KEY_SEMICOLON", 39),
  ("KEY_APOSTROPHE", 40), ("KEY_GRAVE", 41), ("KEY_COMMA", 51),
  ("KEY_DOT", 52), ("KEY_SLASH", 53),
  ("KEY_NUMLOCK", 69), ("KEY_KPSLASH", 98), ("KEY_KPASTERISK", 55),
  ("KEY_KPMINUS", 74), ("KEY_KPPLUS", 78), ("KEY_KPENTER", 96),
  ("KEY_KP0", 82), ("KEY_KP1", 79), ("KEY_KP2", 80), ("KEY_KP3", 81),
  ("KEY_KP4", 75), ("KEY_KP5", 76), ("KEY_KP6", 77), ("KEY_KP7", 71),
  ("KEY_KP8", 72), ("KEY_KP9", 73), ("KEY_KPDOT", 83),
  ("KEY_MUTE", 113), ("KEY_VOLUMEDOWN", 114), ("KEY_VOLUMEUP", 115),
  ("KEY_PLAYPAUSE", 164), ("KEY_NEXTSONG", 163), ("KEY_PREVIOUSSONG", 165),
  ("KEY_STOPCD", 166)]

/-- Rust `str::to_ascii_uppercase`, over the string's character list
(kernel-computable, unlike `String.toUpper`). -/
def to_ascii_uppercase (s : String) : String :=
  ⟨s.data.map Char.toUpper⟩

/-- Rust `str::to_ascii_lowercase`. -/
def to_ascii_lowercase (s : String) : String :=
  ⟨s.data.map Char.toLower⟩

/-- Rust `str::trim`: strip leading and trailing whitespace. -/
def rust_trim (s : String) : String :=
  ⟨((s.data.dropWhile Char.isWhitespace).reverse.dropWhile Char.isWhitespace).reverse⟩

/-- Rust `str::split('+')` on the character list: splits at every `+`,
keeping empty parts (`""` yields `[""]`, `"+"` yields `["", ""]`). -/
def split_plus : List Char → List (List Char)
  | [] => [[]]
  | c :: rest =>
    let r := split_plus rest
    if c = '+' then [] :: r
    else
      match r with
      | [] => [[c]]
      | g :: gs => (c :: g) :: gs

/-- Rust `str::parse::<u16>`: optional leading plus sign, one or more
decimal digits, value below 2^16 (overflow is a parse error). -/
def parse_u16 (s : String) : Option Nat :=
  let chars := if s.data.head? = some '+' then s.data.tail else s.data
  if chars.isEmpty then none
  else if chars.all Char.isDigit then
    let n := chars.foldl (fun acc c => acc * 10 + (c.toNat - 48)) 0
    if n < 65536 then some n else none
  else none

/-- `parse_key` (`config.rs:340`): trim, ASCII-uppercase, try a numeric
`u16` code, then look the name up in `SUPPORTED_KEYS`. -/
def parse_key (input : String) : Except ParseErr KeyCode :=
  let normalized := to_ascii_uppercase (rust_trim input)
  match parse_u16 normalized with
  | some code => .ok code
  | none =>
    match SUPPORTED_KEYS.find? (fun p => p.1 == normalized) with
    | some p => .ok p.2
    | none => .error (.unknownKey input)

/-- `parse_keys` (`config.rs:355`): split on `+`, parse each trimmed part. -/
def parse_keys (input : String) : Except ParseErr (List KeyCode) :=
  (split_plus input.data).mapM fun part => parse_key (rust_trim ⟨part⟩)

/-- `parse_mode` (`config.rs:228`). -/
def parse_mode (value : String) : Except ParseErr Mode :=
  match value with
  | "volume" => .ok .volume
  | "mute" => .ok .mute
  | _ => .error (.invalidMode value)

/-- `parse_startup_state` (`config.rs:243`). -/
def parse_startup_state (value : String) : Except ParseErr StartupState :=
  match value with
  | "muted" => .ok .muted
  | "unmuted" => .ok .unmuted
  | _ => .error (.invalidStartupState value)

/-- `parse_sound_setting` (`config.rs:331`). -/
def parse_sound_setting (value : Option SoundSettingValue) : SoundChoice :=
  match value with
  | none => .default
  | some (.bool false) => .disabled
  | some (.bool true) => .default
  | some (.str s) => .file s

/-- Rust `str::eq_ignore_ascii_case`: equal after ASCII lowercasing. -/
def eq_ignore_ascii_case (a b : String) : Bool :=
  to_ascii_lowercase a == to_ascii_lowercase b

/-- The mutable locals of `parse_args` (`config.rs:499`) while scanning
the argument vector. -/
structure ParseState where
  keys : List KeyCode
  devicePath : Option String
  mode : Mode
  reverse : Bool
  onLevel : Level
  offLevel : Level
  sounds : Bool
  soundOn : SoundChoice
  soundOff : SoundChoice
  soundVolume : Level
  listKeys : Bool
  listDevices : Bool
  printConfig : Bool
  dryRun : Bool
  startupState : StartupState
  startupStateSet : Bool
  suppress : Bool
  persistChanged : Bool
  keySet : Bool
  deriving DecidableEq, Repr

/-- The `while i < args.len()` scan of `parse_args` (`config.rs:529`).
`parseFloat` is the oracle for Rust `str::parse::<f32>` on level and
sound-volume values. -/
def parse_args_loop (parseFloat : String → Option Level) :
    List String → ParseState → Except ParseErr ParseState
  | [], st => .ok st
  | arg :: rest, st =>
    match arg with
    | "-h" => .error .helpExit
    | "--help" => .error .helpExit
    | "--key" =>
      match rest with
      | [] => .error (.missingValue "--key")
      | value :: rest2 =>
        match parse_keys value with
        | .error e => .error e
        | .ok parsed =>
          if st.keySet then
            parse_args_loop parseFloat rest2
              { st with keys := st.keys ++ parsed, persistChanged := true }
          else
            parse_args_loop parseFloat rest2
              { st with keys := parsed, keySet := true, persistChanged := true }
    | "--device" =>
      match rest with
      | [] => .error (.missingValue "--device")
      | value :: rest2 =>
        parse_args_loop parseFloat rest2
          { st with devicePath := some value, persistChanged := true }
    | "--mode" =>
      match rest with
      | [] => .error (.missingValue "--mode")
      | value :: rest2 =>
        match parse_mode value with
        | .error e => .error e
        | .ok m =>
          parse_args_loop parseFloat rest2 { st with mode := m, persistChanged := true }
    | "--reverse" =>
      parse_args_loop parseFloat rest { st with reverse := true, persistChanged := true }
    | "--no-reverse" =>
      parse_args_loop parseFloat rest { st with reverse := false, persistChanged := true }
    | "--on-level" =>
      match rest with
      | [] => .error (.missingValue "--on-level")
      | value :: rest2 =>
        match parseFloat value with
        | none => .error (.invalidLevel "--on-level" value)
        | some lvl =>
          parse_args_loop parseFloat rest2 { st with onLevel := lvl, persistChanged := true }
    | "--off-level" =>
      match rest with
      | [] => .error (.missingValue "--off-level")
      | value :: rest2 =>
        match parseFloat value with
        | none => .error (.invalidLevel "--off-level" value)
        | some lvl =>
          parse_args_loop parseFloat rest2 { st with offLevel := lvl, persistChanged := true }
    | "--sound-on" =>
      match rest with
      | [] => .error (.missingValue "--sound-on")
      | value :: rest2 =>
        if eq_ignore_ascii_case value "false" || value == "0" then
          parse_args_loop parseFloat rest2
            { st with soundOn := .disabled, persistChanged := true }
        else
          parse_args_loop parseFloat rest2
            { st with soundOn := .file value, persistChanged := true }
    | "--sound-off" =>
      match rest with
      | [] => .error (.missingValue "--sound-off")
      | value :: rest2 =>
        if eq_ignore_ascii_case value "false" || value == "0" then
          parse_args_loop parseFloat rest2
            { st with soundOff := .disabled, persistChanged := true }
        else
          parse_args_loop parseFloat rest2
            { st with soundOff := .file value, persistChanged := true }
    | "--sound-volume" =>
      match rest with
      | [] => .error (.missingValue "--sound-volume")
      | value :: rest2 =>
        match parseFloat value with
        | none => .error (.invalidLevel "--sound-volume" value)
        | some lvl =>
          parse_args_loop parseFloat rest2 { st with soundVolume := lvl, persistChanged := true }
    | "--startup-state" =>
      match rest with
      | [] => .error (.missingValue "--startup-state")
      | value :: rest2 =>
        match parse_startup_state value with
        | .error e => .error e
        | .ok s =>
          parse_args_loop parseFloat rest2
            { st with startupState := s, startupStateSet := true, persistChanged := true }
    | "--sounds" =>
      parse_args_loop parseFloat rest { st with sounds := true, persistChanged := true }
    | "--no-sounds" =>
      parse_args_loop parseFloat rest { st with sounds := false, persistChanged := true }
    | "--suppress" =>
      parse_args_loop parseFloat rest { st with suppress := true, persistChanged := true }
    | "--no-suppress" =>
      parse_args_loop parseFloat rest { st with suppress := false, persistChanged := true }
    | "--list-keys" =>
      parse_args_loop parseFloat rest { st with listKeys := true }
    | "--list-devices" =>
      parse_args_loop parseFloat rest { st with listDevices := true }
    | "--print-config" =>
      parse_args_loop parseFloat rest { st with printConfig := true }
    | "--dry-run" =>
      parse_args_loop parseFloat rest { st with dryRun := true }
    | other => .error (.unknownArg other)

/-- `parse_args` (`config.rs:499`): seed the state from the persisted
base config, scan the CLI arguments, validate sound-file existence for
`SoundChoice::File` values, then default the startup state to `Unmuted`
when `reverse` ended up set and no `--startup-state` was given.
`fileExists` is the oracle for `Path::exists`. -/
def parse_args (base : PersistedConfig) (args : List String)
    (parseFloat : String → Option Level) (fileExists : String → Bool) :
    Except ParseErr (Config × Bool) :=
  match base.keys.mapM parse_key with
  | .error e => .error e
  | .ok keys0 =>
    match parse_mode base.mode with
    | .error e => .error e
    | .ok mode0 =>
      match parse_startup_state base.startupState with
      | .error e => .error e
      | .ok startup0 =>
        match parse_args_loop parseFloat args
          { keys := if keys0.isEmpty then [276] else keys0,
            devicePath := base.devicePath, mode := mode0,
            reverse := base.reverse, onLevel := base.onLevel,
            offLevel := base.offLevel, sounds := base.sounds,
            soundOn := parse_sound_setting base.soundOn,
            soundOff := parse_sound_setting base.soundOff,
            soundVolume := base.soundVolume, listKeys := false,
            listDevices := false, printConfig := false, dryRun := false,
            startupState := startup0, startupStateSet := false,
            suppress := base.suppress, persistChanged := false, keySet := false } with
        | .error e => .error e
        | .ok st =>
          match st.soundOn with
          | .file p =>
            if fileExists p then
              match st.soundOff with
              | .file q =>
                if fileExists q then
                  .ok (parse_args_finish st, st.persistChanged)
                else .error (.soundFileMissing q)
              | _ => .ok (parse_args_finish st, st.persistChanged)
            else .error (.soundFileMissing p)
          | _ =>
            match st.soundOff with
            | .file q =>
              if fileExists q then
                .ok (parse_args_finish st, st.persistChanged)
              else .error (.soundFileMissing q)
            | _ => .ok (parse_args_finish st, st.persistChanged)
where
  /-- The final `Config` built at `config.rs:661`: apply the
  reverse-implies-unmuted default and assemble the record. -/
  parse_args_finish (st : ParseState) : Config :=
    { keys := st.keys, devicePath := st.devicePath, mode := st.mode,
      onLevel := st.onLevel, offLevel := st.offLevel, sounds := st.sounds,
      soundOn := st.soundOn, soundOff := st.soundOff,
      soundVolume := st.soundVolume, listKeys := st.listKeys,
      listDevices := st.listDevices, printConfig := st.printConfig,
      dryRun := st.dryRun,
      startupState := if st.reverse && !st.startupStateSet then .unmuted
        else st.startupState,
      reverse := st.reverse, suppress := st.suppress }

/-! ## `src/audio.rs` -/

/-- Opaque byte-blob token (contents of a file or embedded constant). -/
abbrev Bytes := Nat

/-- Opaque decoded-samples token (`rodio::buffer::SamplesBuffer`). -/
abbrev Samples := Nat

/-- Modelled from the spec: the embedded builtin on-transition sound
(`crate::constants::DEFAULT_SOUND_ON_WAV`, an `include_bytes` constant
whose definition is not under `src/`), as an opaque byte-blob token. -/
def DEFAULT_SOUND_ON_WAV : Bytes := 0

/-- Modelled from the spec: the embedded builtin off-transition sound
(`crate::constants::DEFAULT_SOUND_OFF_WAV`), as an opaque token. -/
def DEFAULT_SOUND_OFF_WAV : Bytes := 1

/-- Errors of the audio-cache rebuild. -/
inductive AudioErr
  | decodeFailed                     -- "Failed to decode audio"
  | readFailed (path : String)       -- "Failed to read sound file ..."
  | decodeFileFailed (path : String) -- "Failed to decode sound file ..."
  deriving DecidableEq, Repr

/-- `SoundCache` (`audio.rs:45`): four optional decoded-sample slots. -/
structure SoundCache where
  onSlot : Option Samples
  offSlot : Option Samples
  defaultOn : Option Samples
  defaultOff : Option Samples
  deriving DecidableEq, Repr

/-- `decode_samples` (`audio.rs:52`); `decode` is the oracle for the
external rodio decoder. -/
def decode_samples (decode : Bytes → Option Samples) (bytes : Bytes) :
    Except AudioErr Samples :=
  match decode bytes with
  | some s => .ok s
  | none => .error .decodeFailed

/-- `load_sound_samples` (`audio.rs:61`): `Disabled` loads nothing,
`Default` decodes the embedded bytes, `File` reads and decodes the file;
read and decode failures propagate.  `fsRead` is the oracle for
`fs::read`. -/
def load_sound_samples (fsRead : String → Option Bytes)
    (decode : Bytes → Option Samples) (choice : SoundChoice) (embedded : Bytes) :
    Except AudioErr (Option Samples) :=
  match choice with
  | .disabled => .ok none
  | .default =>
    match decode_samples decode embedded with
    | .error e => .error e
    | .ok s => .ok (some s)
  | .file path =>
    match fsRead path with
    | none => .error (.readFailed path)
    | some bytes =>
      match decode_samples decode bytes with
      | .error _ => .error (.decodeFileFailed path)
      | .ok s => .ok (some s)

/-- `load_default_samples` (`audio.rs:81`): decode the embedded bytes,
swallowing failure with `.ok()`. -/
def load_default_samples (decode : Bytes → Option Samples) (bytes : Bytes) :
    Option Samples :=
  decode bytes

/-- `init_audio_cache` (`audio.rs:113`): with sounds disabled store an
all-empty cache and succeed; otherwise load the configured on/off sounds
(failures propagate) and fill the builtin-default slots best-effort. -/
def init_audio_cache (config : Config) (fsRead : String → Option Bytes)
    (decode : Bytes → Option Samples) : Except AudioErr SoundCache :=
  if !config.sounds then
    .ok { onSlot := none, offSlot := none, defaultOn := none, defaultOff := none }
  else
    match load_sound_samples fsRead decode config.soundOn DEFAULT_SOUND_ON_WAV with
    | .error e => .error e
    | .ok onS =>
      match load_sound_samples fsRead decode config.soundOff DEFAULT_SOUND_OFF_WAV with
      | .error e => .error e
      | .ok offS =>
        .ok { onSlot := onS, offSlot := offS,
              defaultOn := load_default_samples decode DEFAULT_SOUND_ON_WAV,
              defaultOff := load_default_samples decode DEFAULT_SOUND_OFF_WAV }

/-- Decidable equality for `Except`, used to evaluate concrete runs. -/
instance exceptDecidableEq {e a : Type} [DecidableEq e] [DecidableEq a] :
    DecidableEq (Except e a) := fun x y =>
  match x, y with
  | .ok v, .ok v2 =>
    if h : v = v2 then isTrue (by rw [h]) else isFalse (by intro hh; cases hh; exact h rfl)
  | .error v, .error v2 =>
    if h : v = v2 then isTrue (by rw [h]) else isFalse (by intro hh; cases hh; exact h rfl)
  | .ok _, .error _ => isFalse (by intro hh; cases hh)
  | .error _, .ok _ => isFalse (by intro hh; cases hh)

/-! ## Helper lemmas -/

/-- `apply_off` always logs exactly its wpctl call at the end of the trace. -/
theorem apply_off_calls (config : MainConfig) (w : World) :
    (apply_off config w).2.calls = w.calls ++ [off_call config] := by
  obtain ⟨wp, cs⟩ := w
  cases hm : config.mode <;>
    cases wp <;>
      simp [apply_off, set_volume, set_mute, off_call, World.log, World.popWpctl, hm]

/-- With no pending wpctl failure, `apply_off` succeeds and logs its call. -/
theorem apply_off_wpctl_nil (config : MainConfig) (w : World) (h : w.wpctl = []) :
    apply_off config w = (.ok (), ⟨[], w.calls ++ [off_call config]⟩) := by
  obtain ⟨wp, cs⟩ := w
  simp only at h
  subst h
  cases hm : config.mode <;>
    simp [apply_off, set_volume, set_mute, off_call, World.log, World.popWpctl, hm]

/-- With no pending wpctl failure, `apply_on` succeeds and logs its call. -/
theorem apply_on_wpctl_nil (config : MainConfig) (w : World) (h : w.wpctl = []) :
    apply_on config w = (.ok (), ⟨[], w.calls ++ [on_call config]⟩) := by
  obtain ⟨wp, cs⟩ := w
  simp only at h
  subst h
  cases hm : config.mode <;>
    simp [apply_on, set_volume, set_mute, on_call, World.log, World.popWpctl, hm]

/-- When the next wpctl invocation fails, `apply_off` errors after logging. -/
theorem apply_off_wpctl_fail (config : MainConfig) (w : World)
    (h : w.wpctl.head? = some false) :
    apply_off config w =
      (.error .wpctlFailed, ⟨w.wpctl.tail, w.calls ++ [off_call config]⟩) := by
  obtain ⟨wp, cs⟩ := w
  cases wp with
  | nil => simp at h
  | cons b rest =>
    simp only [List.head?_cons, Option.some.injEq] at h
    subst h
    cases hm : config.mode <;>
      simp [apply_off, set_volume, set_mute, off_call, World.log, World.popWpctl, hm]

/-- When the next wpctl invocation fails, `apply_on` errors after logging. -/
theorem apply_on_wpctl_fail (config : MainConfig) (w : World)
    (h : w.wpctl.head? = some false) :
    apply_on config w =
      (.error .wpctlFailed, ⟨w.wpctl.tail, w.calls ++ [on_call config]⟩) := by
  obtain ⟨wp, cs⟩ := w
  cases wp with
  | nil => simp at h
  | cons b rest =>
    simp only [List.head?_cons, Option.some.injEq] at h
    subst h
    cases hm : config.mode <;>
      simp [apply_on, set_volume, set_mute, on_call, World.log, World.popWpctl, hm]

/-- `play_transition_sound` only appends its calls to the trace. -/
theorem play_transition_sound_calls (config : MainConfig) (onEdge : Bool) (w : World) :
    play_transition_sound config onEdge w =
      ⟨w.wpctl, w.calls ++ sound_call config onEdge⟩ := by
  obtain ⟨wp, cs⟩ := w
  unfold play_transition_sound sound_call
  cases config.sounds <;> cases onEdge <;>
    cases hso : config.soundOn <;> cases hsf : config.soundOff <;>
      simp [World.log]

/-- After a prefix of non-permission failures, `reopen_device_loop`
returns the first successful open, having slept one second per failure. -/
theorem reopen_device_loop_ok (pre : List (Except AppError Device)) (d : Device)
    (t : List (Except AppError Device)) (w : World)
    (h : ∀ a ∈ pre, ∃ e, a = .error e ∧ is_permission_denied e = false) :
    reopen_device_loop (pre ++ .ok d :: t) w =
      some (.ok d, ⟨w.wpctl, w.calls ++ List.replicate pre.length (.sleepSecs 1)⟩) := by
  induction pre generalizing w with
  | nil => simp [reopen_device_loop]
  | cons a pre ih =>
    obtain ⟨e, rfl, hperm⟩ := h a (by simp)
    have hrec := ih (w.log (.sleepSecs 1)) (fun a ha => h a (by simp [ha]))
    have hstep : reopen_device_loop ((Except.error e :: pre) ++ Except.ok d :: t) w
        = reopen_device_loop (pre ++ Except.ok d :: t) (w.log (ExtCall.sleepSecs 1)) := by
      simp [reopen_device_loop, hperm]
    rw [hstep, hrec]
    simp [World.log, List.replicate_succ, List.append_assoc, List.length_cons]

/-! ## Sample configurations for concrete runs -/

/-- A concrete `main.rs` configuration: chord `[BTN_EXTRA]` (code 276),
mute mode, sounds disabled. -/
def mute_config : MainConfig :=
  { keys := [276], devicePath := none, mode := .mute, onLevel := 1, offLevel := 0,
    sounds := false, soundOn := none, soundOff := none, listKeys := false,
    listDevices := false, printConfig := false, dryRun := false,
    startupState := .muted }

/-- The corresponding `config.rs` configuration with `reverse := true`:
same chord `[BTN_EXTRA]`, mute mode. -/
def reverse_config : Config :=
  { keys := [276], devicePath := none, mode := .mute, onLevel := 1, offLevel := 0,
    sounds := false, soundOn := .disabled, soundOff := .disabled, soundVolume := 1,
    listKeys := false, listDevices := false, printConfig := false, dryRun := false,
    startupState := .unmuted, reverse := true, suppress := false }

/-- The `main.rs` configuration with an explicit device path. -/
def path_config : MainConfig :=
  { keys := [276], devicePath := some "/dev/input/event7", mode := .mute,
    onLevel := 1, offLevel := 0, sounds := false, soundOn := none, soundOff := none,
    listKeys := false, listDevices := false, printConfig := false, dryRun := false,
    startupState := .muted }

/-- A device that reports no key-capability set at all. -/
def nokeys_device : Device := ⟨none⟩

/-! ## Claim theorems -/

/-- C6: `update_pressed_keys` inserts the key on value 1, removes it on
value 0 and leaves the set unchanged on any other value (key repeat);
membership in the updated set is characterized completely, so the update
has no other effect. -/
theorem C6_update_pressed_keys (pressed : Finset KeyCode) (key : KeyCode)
    (value : Int) (x : KeyCode) :
    x ∈ update_pressed_keys pressed key value ↔
      (if value = 1 then x = key ∨ x ∈ pressed
       else if value = 0 then x ≠ key ∧ x ∈ pressed
       else x ∈ pressed) := by
  unfold update_pressed_keys
  split
  · simp [Finset.mem_insert]
  · simp [Finset.mem_erase]
  next h1 h0 =>
    rw [if_neg h1, if_neg h0]

/-- C2 counterexample: with the chord `[276]` fully pressed and
`reverse = true` in the `config.rs` configuration, the spec formula
`all_pressed XOR reverse` yields `false`, yet the loop of `src/main.rs`
(whose `Config` has no reverse field) applies activation `true`: the
activation applied by the loop is not `all_pressed XOR config.reverse`. -/
theorem C2_counterexample :
    desired_activation_spec reverse_config.keys reverse_config.reverse
        (insert 276 ∅) = false ∧
    (refresh_active_state mute_config (insert 276 ∅) false ⟨[], []⟩).2.1 = true := by
  constructor
  · decide
  · decide

/-- C2 amended: the activation applied by the loop equals `all_pressed`
alone — the spec's `desired_activation` formula specialised to
`reverse = false`; the loop never consults a reverse flag. -/
theorem C2_amended (config : MainConfig) (pressed : Finset KeyCode) (active : Bool)
    (w : World) (hw : w.wpctl = []) :
    (refresh_active_state config pressed active w).2.1 =
      desired_activation_spec config.keys false pressed := by
  by_cases h : (config.keys.all fun k => decide (k ∈ pressed)) = active
  · simp [refresh_active_state, desired_activation_spec, h]
  · cases hall : (config.keys.all fun k => decide (k ∈ pressed)) with
    | true =>
      rw [hall] at h
      simp [refresh_active_state, desired_activation_spec, hall, h,
        set_active_state, apply_on_wpctl_nil config w hw]
    | false =>
      rw [hall] at h
      simp [refresh_active_state, desired_activation_spec, hall, h,
        set_active_state, apply_off_wpctl_nil config w hw]

/-- C2 amended, witnessed at a concrete input. -/
theorem C2_amended_witness :
    (refresh_active_state mute_config ∅ false ⟨[], []⟩).2.1 =
      desired_activation_spec mute_config.keys false ∅ :=
  C2_amended mute_config ∅ false ⟨[], []⟩ rfl

/-- C5: the external action and the transition sound are invoked only
when the recomputed desired activation differs from the stored one
(an equal desire is a complete no-op), and when the apply fails the
stored activation is left unchanged (only the attempted wpctl call is
logged, no sound). -/
theorem C5_transition_discipline (config : MainConfig) (pressed : Finset KeyCode)
    (active : Bool) (w : World) :
    ((config.keys.all fun k => decide (k ∈ pressed)) = active →
      refresh_active_state config pressed active w = (.ok (), active, w)) ∧
    ((config.keys.all fun k => decide (k ∈ pressed)) ≠ active → w.wpctl = [] →
      refresh_active_state config pressed active w =
        (.ok (), (config.keys.all fun k => decide (k ∈ pressed)),
          ⟨[], w.calls ++
            (if config.keys.all fun k => decide (k ∈ pressed) then on_call config
             else off_call config) ::
            sound_call config (config.keys.all fun k => decide (k ∈ pressed))⟩)) ∧
    ((config.keys.all fun k => decide (k ∈ pressed)) ≠ active →
      w.wpctl.head? = some false →
      refresh_active_state config pressed active w =
        (.error .wpctlFailed, active,
          ⟨w.wpctl.tail, w.calls ++
            [if config.keys.all fun k => decide (k ∈ pressed) then on_call config
             else off_call config]⟩)) := by
  refine ⟨fun h => ?_, fun h hw => ?_, fun h hf => ?_⟩
  · simp [refresh_active_state, h]
  · cases hall : (config.keys.all fun k => decide (k ∈ pressed)) with
    | true =>
      rw [hall] at h
      simp [refresh_active_state, hall, h, set_active_state,
        apply_on_wpctl_nil config w hw, play_transition_sound_calls]
    | false =>
      rw [hall] at h
      simp [refresh_active_state, hall, h, set_active_state,
        apply_off_wpctl_nil config w hw, play_transition_sound_calls]
  · cases hall : (config.keys.all fun k => decide (k ∈ pressed)) with
    | true =>
      rw [hall] at h
      simp [refresh_active_state, hall, h, set_active_state,
        apply_on_wpctl_fail config w hf]
    | false =>
      rw [hall] at h
      simp [refresh_active_state, hall, h, set_active_state,
        apply_off_wpctl_fail config w hf]

/-- C5, witnessed: pressing the chord from the inactive state performs
exactly the apply-on call (no sound with sounds disabled) and stores
activation `true`. -/
theorem C5_transition_discipline_witness :
    refresh_active_state mute_config (insert 276 ∅) false ⟨[], []⟩ =
      (.ok (), true, ⟨[], [ExtCall.setMuteCall false]⟩) := by
  have h := (C5_transition_discipline mute_config (insert 276 ∅) false ⟨[], []⟩).2.1
    (by decide) rfl
  simpa using h

/-- C1 counterexample: a wpctl failure while applying the on-transition
inside `handle_events` propagates through the `?` in the loop body and
out of `main`, and the run terminates with an error while the trace
contains no `apply_off` call at all — the final safety "off" after the
loop is skipped on this exit, so "off is applied exactly once on every
exit" fails. -/
theorem C1_counterexample :
    main_loop mute_config [⟨.ok [.key 276 1], []⟩] ∅ false ⟨[false], []⟩ =
      some (.error .wpctlFailed, insert 276 ∅, false, ⟨[], [.setMuteCall false]⟩) ∧
    off_call mute_config ∉ [ExtCall.setMuteCall false] := by
  constructor
  · decide
  · decide

/-- C1 amended: only when the loop exits because the termination flag was
cleared and `main` returns success is the final safety `apply_off`
applied, exactly once, as the last external call; exits by error
propagation return from `main` immediately instead. -/
theorem C1_amended (config : MainConfig) (stims : List IterStim)
    (pressed pressed2 : Finset KeyCode) (active active2 : Bool) (w w2 : World)
    (h : main_loop config stims pressed active w =
      some (.ok (), pressed2, active2, w2)) :
    ∃ pre, w2.calls = pre ++ [off_call config] := by
  induction stims generalizing pressed active w with
  | nil =>
    unfold main_loop at h
    rcases happ : apply_off config w with ⟨res, w3⟩
    rw [happ] at h
    cases res with
    | error e => simp at h
    | ok u =>
      simp only [Option.some.injEq, Prod.mk.injEq] at h
      obtain ⟨-, -, -, hw⟩ := h
      refine ⟨w.calls, ?_⟩
      have h2 : (apply_off config w).2 = w3 := by rw [happ]
      rw [← hw, ← h2, apply_off_calls]
  | cons stim rest ih =>
    unfold main_loop at h
    rcases hhe : handle_events config stim.fetch pressed active w with ⟨r, p3, a3, w3⟩
    rw [hhe] at h
    cases r with
    | error e => simp at h
    | ok o =>
      cases o with
      | none => exact ih p3 a3 w3 h
      | some ioe =>
        dsimp only at h
        rcases happ : apply_off config w3 with ⟨res, w4⟩
        rw [happ] at h
        cases res with
        | error e => simp at h
        | ok u =>
          dsimp only at h
          rcases hro : reopen_device_loop stim.reopenAttempts w4 with - | ⟨rr, w5⟩
          · rw [hro] at h
            simp at h
          · rw [hro] at h
            cases rr with
            | error e => simp at h
            | ok d => exact ih ∅ false w5 h

/-- C1 amended, witnessed: a run with no loop iterations ends with the
final apply-off call as the last trace entry. -/
theorem C1_amended_witness :
    ∃ pre, (⟨[], [ExtCall.setMuteCall true]⟩ : World).calls =
      pre ++ [off_call mute_config] :=
  C1_amended mute_config [] ∅ ∅ false false ⟨[], []⟩ ⟨[], [.setMuteCall true]⟩
    (by decide)

/-- C3 counterexample: a `WouldBlock` fetch result does trigger the
device-lost recovery path: starting from pressed set `{276}` and
activation `true`, the loop forces "off" (first `setMuteCall true`),
clears the pressed set and the activation state, and consumes a reopen
attempt — everything the claim says must not happen for `WouldBlock`. -/
theorem C3_counterexample :
    main_loop mute_config [⟨.err .wouldBlock, [.ok ⟨none⟩]⟩] (insert 276 ∅) true
        ⟨[], []⟩ =
      some (.ok (), ∅, false, ⟨[], [.setMuteCall true, .setMuteCall true]⟩) ∧
    (insert 276 (∅ : Finset KeyCode)) ≠ ∅ := by
  constructor
  · decide
  · decide

/-- C3 amended: `handle_events` never inspects the kind of a fetch
error, so `WouldBlock` takes exactly the same path as any other fetch
error; in particular (wpctl succeeding, first reopen attempt
succeeding) any fetch error forces "off" and continues with the pressed
set cleared and activation false. -/
theorem C3_amended (config : MainConfig) (e : IoErrorKind)
    (att : List (Except AppError Device)) (rest : List IterStim)
    (pressed : Finset KeyCode) (active : Bool) (w : World) :
    main_loop config (⟨.err e, att⟩ :: rest) pressed active w =
      main_loop config (⟨.err .other, att⟩ :: rest) pressed active w ∧
    (w.wpctl = [] → ∀ d,
      main_loop config (⟨.err e, [.ok d]⟩ :: rest) pressed active w =
        main_loop config rest (∅ : Finset KeyCode) false
          ⟨[], w.calls ++ [off_call config]⟩) := by
  constructor
  · rfl
  · intro hw d
    have happ := apply_off_wpctl_nil config w hw
    conv_lhs => rw [main_loop]
    dsimp only [handle_events]
    rw [happ]
    dsimp only [reopen_device_loop]

/-- C3 amended, witnessed at a concrete `WouldBlock` recovery run. -/
theorem C3_amended_witness :
    main_loop mute_config [⟨.err .wouldBlock, [.ok ⟨none⟩]⟩] ∅ false ⟨[], []⟩ =
      main_loop mute_config [] (∅ : Finset KeyCode) false
        ⟨[], [off_call mute_config]⟩ :=
  (C3_amended mute_config .wouldBlock [.ok ⟨none⟩] [] ∅ false ⟨[], []⟩).2 rfl ⟨none⟩

/-- C4 (code bug): evaluating the code at the failing input.  A reopen
attempt in which `Device::open` fails with EACCES produces, through the
`with_context` wrapper in `open_device`, the error whose `to_string()`
is just "Failed to open device /dev/input/event7"; `is_permission_denied`
therefore returns `false` on it, and `reopen_device_loop` takes the
generic branch: the permission-denied attempt is retried after a
one-second sleep instead of being returned, the next (successful)
attempt resumes the loop, and permission-denied failures alone never
make the loop exit — retried indefinitely (`none` = the reopen loop does
not terminate within the supplied attempts). -/
theorem C4_permission_denied_retried :
    open_device path_config (fun _ => .error .permissionDenied) [] =
      .error (.openFailed "/dev/input/event7" .permissionDenied) ∧
    is_permission_denied (.openFailed "/dev/input/event7" .permissionDenied) = false ∧
    main_loop mute_config
        [⟨.err .other,
          [.error (.openFailed "/dev/input/event7" .permissionDenied), .ok ⟨none⟩]⟩]
        ∅ false ⟨[], []⟩ =
      some (.ok (), ∅, false,
        ⟨[], [.setMuteCall true, .sleepSecs 1, .setMuteCall true]⟩) ∧
    reopen_device_loop
        (List.replicate 3 (.error (.openFailed "/dev/input/event7" .permissionDenied)))
        ⟨[], []⟩ = none := by
  refine ⟨by rfl, by decide, by decide, by decide⟩

/-- `parse_args_loop` never sets `startupStateSet` unless it actually
scans a `--startup-state` argument. -/
theorem parse_args_loop_startup_not_set (parseFloat : String → Option Level)
    (args : List String) (st : ParseState) :
    ∀ st2, parse_args_loop parseFloat args st = .ok st2 →
      "--startup-state" ∉ args → st.startupStateSet = false →
      st2.startupStateSet = false := by
  induction args, st using parse_args_loop.induct parseFloat
  all_goals intro st2 h hmem hset
  all_goals simp only [parse_args_loop] at h
  all_goals try (exact Except.noConfusion h)
  all_goals try (injection h with h2; exact h2 ▸ hset)
  all_goals try (exact absurd (List.mem_cons_self _ _) hmem)
  all_goals try (rename_i heq; simp only [heq] at h; exact Except.noConfusion h)
  all_goals try (rename_i ih; exact ih st2 h (fun hc => hmem (by simp [hc])) hset)
  all_goals try (rename_i heq ih; simp only [heq] at h; exact ih st2 h (fun hc => hmem (by simp [hc])) hset)
  all_goals try (rename_i heq1 heq2 ih; simp only [heq1, heq2] at h; exact ih st2 h (fun hc => hmem (by simp [hc])) hset)
  all_goals try (rename_i heq1 heq2 ih; simp only [heq1] at h; rw [if_pos heq2] at h; exact ih st2 h (fun hc => hmem (by simp [hc])) hset)

/-- The `Config` value produced by `parse_args` for the run with default
persisted base and arguments `["--reverse", "--no-reverse"]`. -/
def c9_result : Config :=
  { keys := [276], devicePath := none, mode := .volume, onLevel := 1, offLevel := 0,
    sounds := true, soundOn := .default, soundOff := .default, soundVolume := 1,
    listKeys := false, listDevices := false, printConfig := false, dryRun := false,
    startupState := .muted, reverse := false, suppress := false }

/-- C9 counterexample: with the default persisted base and the argument
vector `["--reverse", "--no-reverse"]`, the flag `--reverse` is present
and `--startup-state` is absent, yet the parsed startup state is
`Muted`, not `Unmuted`: the later `--no-reverse` clears the reverse flag
before the `reverse && !startup_state_set` default fires. -/
theorem C9_counterexample :
    "--reverse" ∈ ["--reverse", "--no-reverse"] ∧
    "--startup-state" ∉ ["--reverse", "--no-reverse"] ∧
    parse_args default_persisted_config ["--reverse", "--no-reverse"]
        (fun _ => none) (fun _ => false) = .ok (c9_result, true) ∧
    c9_result.startupState ≠ .unmuted := by
  refine ⟨by decide, by decide, by rfl, by decide⟩

/-- C9 amended: whenever parsing succeeds with a final `reverse` value of
`true` (for example `--reverse` given and not overridden by a later
`--no-reverse`) and no `--startup-state` argument was given, the startup
state of the resulting configuration is `Unmuted`, overriding whatever
startup state the persisted base configuration contained. -/
theorem C9_amended (base : PersistedConfig) (args : List String)
    (parseFloat : String → Option Level) (fileExists : String → Bool)
    (cfg : Config) (changed : Bool)
    (h : parse_args base args parseFloat fileExists = .ok (cfg, changed))
    (hrev : cfg.reverse = true) (hss : "--startup-state" ∉ args) :
    cfg.startupState = .unmuted := by
  unfold parse_args at h
  repeat' split at h
  all_goals try (exact Except.noConfusion h)
  all_goals (
    injection h with h2
    rw [Prod.mk.injEq] at h2
    obtain ⟨hcfg, -⟩ := h2
    subst hcfg
    simp only [parse_args.parse_args_finish] at hrev ⊢
    simp [hrev, parse_args_loop_startup_not_set parseFloat args _ _
      (by assumption) hss rfl])

/-- The `Config` produced for base defaults plus `["--reverse"]`. -/
def c9_reverse_result : Config :=
  { keys := [276], devicePath := none, mode := .volume, onLevel := 1, offLevel := 0,
    sounds := true, soundOn := .default, soundOff := .default, soundVolume := 1,
    listKeys := false, listDevices := false, printConfig := false, dryRun := false,
    startupState := .unmuted, reverse := true, suppress := false }

/-- C9 amended, witnessed at the run with arguments `["--reverse"]`. -/
theorem C9_amended_witness : c9_reverse_result.startupState = .unmuted :=
  C9_amended default_persisted_config ["--reverse"] (fun _ => none) (fun _ => false)
    c9_reverse_result true (by rfl) (by rfl) (by decide)

/-- The `Config` produced for base defaults plus `["--sound-on", v]`
with `v` a disabling value. -/
def c10_on_result : Config :=
  { keys := [276], devicePath := none, mode := .volume, onLevel := 1, offLevel := 0,
    sounds := true, soundOn := .disabled, soundOff := .default, soundVolume := 1,
    listKeys := false, listDevices := false, printConfig := false, dryRun := false,
    startupState := .muted, reverse := false, suppress := false }

/-- The `Config` produced for base defaults plus `["--sound-off", v]`
with `v` a disabling value. -/
def c10_off_result : Config :=
  { keys := [276], devicePath := none, mode := .volume, onLevel := 1, offLevel := 0,
    sounds := true, soundOn := .default, soundOff := .disabled, soundVolume := 1,
    listKeys := false, listDevices := false, printConfig := false, dryRun := false,
    startupState := .muted, reverse := false, suppress := false }

/-- C10: a `--sound-on`/`--sound-off` value equal to "false" in any
letter case, or "0", yields `SoundChoice::Disabled` for that edge rather
than a file path, and parsing succeeds for EVERY file-existence oracle —
in particular one where no file exists — so the value bypasses the
existence validation applied to `SoundChoice::File`. -/
theorem C10_sound_false_disables (parseFloat : String → Option Level)
    (fileExists : String → Bool) (value : String)
    (h : eq_ignore_ascii_case value "false" = true ∨ value = "0") :
    parse_args default_persisted_config ["--sound-on", value] parseFloat fileExists =
      .ok (c10_on_result, true) ∧
    parse_args default_persisted_config ["--sound-off", value] parseFloat fileExists =
      .ok (c10_off_result, true) ∧
    c10_on_result.soundOn = .disabled ∧ c10_off_result.soundOff = .disabled := by
  have hcond : (eq_ignore_ascii_case value "false" || value == "0") = true := by
    rcases h with h | h
    · simp [h]
    · simp [h]
  refine ⟨?_, ?_, rfl, rfl⟩ <;>
  · unfold parse_args parse_args_loop
    simp only [hcond]
    rfl

/-- C10, witnessed with value "FALSE" and an oracle under which no file
exists. -/
theorem C10_sound_false_disables_witness :
    parse_args default_persisted_config ["--sound-on", "FALSE"] (fun _ => none)
        (fun _ => false) = .ok (c10_on_result, true) ∧
    c10_on_result.soundOn = .disabled :=
  have h := C10_sound_false_disables (fun _ => none) (fun _ => false) "FALSE"
    (Or.inl (by decide))
  ⟨h.1, h.2.2.1⟩

/-- A `config.rs` configuration with sounds enabled and two configured
sound files. -/
def files_config : Config :=
  { keys := [276], devicePath := none, mode := .mute, onLevel := 1, offLevel := 0,
    sounds := true, soundOn := .file "on.wav", soundOff := .file "off.wav",
    soundVolume := 1, listKeys := false, listDevices := false, printConfig := false,
    dryRun := false, startupState := .muted, reverse := false, suppress := false }

/-- A file-system oracle holding the two configured sound files. -/
def files_read : String → Option Bytes := fun p =>
  if p == "on.wav" then some 10 else if p == "off.wav" then some 11 else none

/-- A decoder that decodes both configured files but fails on the
embedded builtin bytes. -/
def decode_no_embedded : Bytes → Option Samples := fun b =>
  if b == 10 then some 1 else if b == 11 then some 2 else none

/-- C7 counterexample: decoding the builtin default sounds fails
(`decode` returns `none` on the embedded bytes), yet `init_audio_cache`
returns success, filling the configured slots and leaving only the
builtin-default slots empty — the rebuild does not return an error on
this decode failure. -/
theorem C7_counterexample :
    load_default_samples decode_no_embedded DEFAULT_SOUND_ON_WAV = none ∧
    load_default_samples decode_no_embedded DEFAULT_SOUND_OFF_WAV = none ∧
    files_config.sounds = true ∧
    init_audio_cache files_config files_read decode_no_embedded =
      .ok { onSlot := some 1, offSlot := some 2,
            defaultOn := none, defaultOff := none } := by
  refine ⟨rfl, rfl, rfl, by rfl⟩

/-- C7 amended: with `sounds = false` the rebuild stores an all-empty
cache and succeeds; with `sounds = true` it succeeds exactly when
loading both configured sounds succeeds (a read or decode failure of a
configured sound fails the whole call, propagating that error), and on
success the builtin-default slots hold whatever the embedded decode
produced — an embedded decode failure is swallowed, leaving just those
slots empty. -/
theorem C7_amended (config : Config) (fsRead : String → Option Bytes)
    (decode : Bytes → Option Samples) :
    (config.sounds = false →
      init_audio_cache config fsRead decode =
        .ok { onSlot := none, offSlot := none, defaultOn := none, defaultOff := none }) ∧
    (config.sounds = true →
      (∀ e, load_sound_samples fsRead decode config.soundOn DEFAULT_SOUND_ON_WAV =
          .error e → init_audio_cache config fsRead decode = .error e) ∧
      (∀ s e, load_sound_samples fsRead decode config.soundOn DEFAULT_SOUND_ON_WAV =
          .ok s →
        load_sound_samples fsRead decode config.soundOff DEFAULT_SOUND_OFF_WAV =
          .error e → init_audio_cache config fsRead decode = .error e) ∧
      (∀ s1 s2, load_sound_samples fsRead decode config.soundOn DEFAULT_SOUND_ON_WAV =
          .ok s1 →
        load_sound_samples fsRead decode config.soundOff DEFAULT_SOUND_OFF_WAV =
          .ok s2 →
        init_audio_cache config fsRead decode =
          .ok { onSlot := s1, offSlot := s2,
                defaultOn := load_default_samples decode DEFAULT_SOUND_ON_WAV,
                defaultOff := load_default_samples decode DEFAULT_SOUND_OFF_WAV })) := by
  refine ⟨fun h => ?_, fun h => ⟨fun e he => ?_, fun s e hs he => ?_, fun s1 s2 h1 h2 => ?_⟩⟩
  · simp [init_audio_cache, h]
  · simp [init_audio_cache, h, he]
  · simp [init_audio_cache, h, hs, he]
  · simp [init_audio_cache, h, h1, h2]

/-- C7 amended, witnessed: a configured-file read failure fails the
whole rebuild. -/
theorem C7_amended_witness :
    init_audio_cache files_config (fun _ => none) decode_no_embedded =
      .error (.readFailed "on.wav") :=
  ((C7_amended files_config (fun _ => none) decode_no_embedded).2 rfl).1
    (.readFailed "on.wav") (by rfl)

/-- C8 counterexample: with an explicit device path and chord `[276]`,
a device whose `supported_keys()` is `None` — reporting support for no
key whatsoever — is accepted by `open_device`, because the verification
runs only inside `if let Some(keys)`; the claim's "fails whenever the
opened device does not report support for every configured key" is
violated. -/
theorem C8_counterexample :
    open_device path_config (fun _ => .ok nokeys_device) [] = .ok nokeys_device ∧
    nokeys_device.supportedKeys = none ∧
    path_config.keys = [276] := by
  refine ⟨by rfl, rfl, rfl⟩

/-- Probe-branch head selection: taking the head of the filtered device
list is the same as `find?` of the predicate. -/
theorem filter_head_vs_find (l : List Device) (p : Device → Bool) :
    (match l.filter p with
      | [] => (Except.error .noDeviceFound : Except AppError Device)
      | d :: _ => .ok d) =
    (match l.find? p with
      | some d => .ok d
      | none => .error .noDeviceFound) := by
  induction l with
  | nil => rfl
  | cons d l ih =>
    by_cases h : p d
    · rw [List.find?_cons_of_pos _ h]
      simp [List.filter_cons, h]
    · rw [List.find?_cons_of_neg _ h]
      rw [← ih]
      simp [List.filter_cons, h]

/-- C8 amended: with an explicit path, when the opened device reports a
key set the open succeeds iff every configured key is in it (the first
missing key fails it, with no fallback to probing), but a device
reporting no key set at all is accepted without verification; with no
explicit path, the first enumerated device supporting all configured
keys is returned, and if there is none the open fails with the
"no device found" error. -/
theorem C8_amended (config : MainConfig) (openAt : String → Except IoErrorKind Device)
    (enumerated : List Device) :
    (∀ p d ks, config.devicePath = some p → openAt p = .ok d →
      d.supportedKeys = some ks →
      ((∀ k ∈ config.keys, k ∈ ks) →
        open_device config openAt enumerated = .ok d) ∧
      ((∃ k ∈ config.keys, k ∉ ks) →
        ∃ k ∈ config.keys, k ∉ ks ∧
          open_device config openAt enumerated = .error (.unsupportedKey p k))) ∧
    (∀ p d, config.devicePath = some p → openAt p = .ok d →
      d.supportedKeys = none → open_device config openAt enumerated = .ok d) ∧
    (config.devicePath = none →
      open_device config openAt enumerated =
        match enumerated.find? (fun d =>
            (d.supportedKeys.map fun ks =>
              config.keys.all fun k => decide (k ∈ ks)).getD false) with
        | some d => .ok d
        | none => .error .noDeviceFound) := by
  refine ⟨fun p d ks hp hopen hks => ⟨fun hall => ?_, fun hex => ?_⟩,
    fun p d hp hopen hks => ?_, fun hp => ?_⟩
  · have hfind : config.keys.find? (fun k => decide (k ∉ ks)) = none := by
      rw [List.find?_eq_none]
      intro x hx
      simpa using hall x hx
    simp only [decide_not] at hfind
    simp [open_device, hp, hopen, hks, hfind]
  · obtain ⟨k0, hk0m, hk0n⟩ := hex
    have hsome : (config.keys.find? (fun k => decide (k ∉ ks))).isSome := by
      rw [List.find?_isSome]
      exact ⟨k0, hk0m, by simpa using hk0n⟩
    obtain ⟨k, hk⟩ := Option.isSome_iff_exists.mp hsome
    refine ⟨k, List.mem_of_find?_eq_some hk, by simpa using List.find?_some hk, ?_⟩
    simp only [decide_not] at hk
    simp [open_device, hp, hopen, hks, hk]
  · simp [open_device, hp, hopen, hks]
  · unfold open_device
    rw [hp]
    exact filter_head_vs_find enumerated _

/-- C8 amended, witnessed: probing with no capable device fails with the
"no device found" error. -/
theorem C8_amended_witness :
    open_device mute_config (fun _ => .error .other) [nokeys_device] =
      .error .noDeviceFound := by
  have h := (C8_amended mute_config (fun _ => .error .other)
    [nokeys_device]).2.2 rfl
  simpa using h
